import Mathlib

/-!
Shallow embedding of the `duckdb_benchmark` Python package
(`src/duckdb_benchmark/{config,data_generator,benchmark,load_tpch_extension}.py`)
together with theorems settling the specification claims.

Modelling conventions:
- Python floats that appear in the code only through `str`, `int`,
  `is_integer` and order comparisons are modelled by `PyDecimal`, the
  (sign, integer part, shortest fractional digit string) reading of the
  float literal, with `toRat` giving its exact numeric value.
- Filesystem existence checks are an oracle `fsExists : String → Bool`.
- Side effects (mkdir, opening a DuckDB connection, executing SQL,
  writing files, downloading) are recorded as an `Event` trace; fallible
  operations return `Except`.
- The DuckDB engine itself is external: the outcome of executing one
  TPC-H query is an oracle `Int → Int → ExecOutcome`, mirroring the three
  branches of `Benchmark._execute_query`.
-/

namespace DuckdbBenchmark

/-- The decimal reading of a Python float: sign, integer part and the
digits printed after the decimal point by `str(x)` (Python prints the
shortest round-tripping decimal, e.g. `str(0.01) = "0.01"`,
`str(1.0) = "1.0"`). -/
structure PyDecimal where
  neg : Bool
  intPart : Nat
  fracDigits : List Nat
deriving Repr, DecidableEq

/-- Numeric value of a fractional digit string: `[d1, d2, ...]` is
`d1/10 + d2/100 + ...`. -/
def digitsVal : List Nat → Rat
  | [] => 0
  | d :: t => ((d : Rat) + digitsVal t) / 10

/-- Exact numeric value of a `PyDecimal`. -/
def PyDecimal.toRat (d : PyDecimal) : Rat :=
  let mag : Rat := (d.intPart : Rat) + digitsVal d.fracDigits
  if d.neg then -mag else mag

/-- Python `float.is_integer()`: the value has no fractional part. -/
def PyDecimal.is_integer (d : PyDecimal) : Bool :=
  d.fracDigits.all (fun dig => dig = 0)

/-- Executable form of the Python comparison `x <= 0` on a float given
as a `PyDecimal`: true when the sign is negative, or the value is zero.
`PyDecimal.nonposCheck_iff` proves it agrees with `toRat ≤ 0`. -/
def PyDecimal.nonposCheck (d : PyDecimal) : Bool :=
  d.neg || (d.intPart = 0 && d.fracDigits.all (fun dig => dig = 0))

/-- Python `int(x)`: truncation toward zero. -/
def PyDecimal.trunc (d : PyDecimal) : Int :=
  if d.neg then -(d.intPart : Int) else (d.intPart : Int)

/-- Digit list rendered as a string of decimal digits. -/
def digitsToString (l : List Nat) : String :=
  String.join (l.map (fun dig => toString dig))

/-- Python `str(x)` on a float: integer part, a dot, then the fractional
digits (always at least one digit after the dot, e.g. `"1.0"`). -/
def PyDecimal.str (d : PyDecimal) : String :=
  (if d.neg then "-" else "") ++ toString d.intPart ++ "." ++ digitsToString d.fracDigits

/-- Python `str.replace(old, new)` specialised to the one-character
patterns the source uses (`"."` and the single quote): every occurrence
of `old` is replaced by the characters `new`. -/
def pyReplaceChar (old : Char) (new : List Char) (s : String) : String :=
  ⟨s.data.foldr (fun c acc => (if c = old then new else [c]) ++ acc) []⟩

/-- Source `data_generator._escape_sql_string` / `load_tpch_extension._escape_sql_string`:
replace every single quote by two single quotes. -/
def _escape_sql_string (value : String) : String :=
  pyReplaceChar '\x27' ['\x27', '\x27'] value

/-- Source `data_generator._format_scale_factor`: integral scale factors render
as `str(int(sf))`; fractional ones as `str(sf)` with the dot replaced by
an underscore. -/
def _format_scale_factor (scale_factor : PyDecimal) : String :=
  if scale_factor.is_integer then toString scale_factor.trunc
  else pyReplaceChar '.' ['_'] scale_factor.str

/-- Source `data_generator._get_db_filename`: `f"tpch_sf{_format_scale_factor(sf)}.db"`. -/
def _get_db_filename (scale_factor : PyDecimal) : String :=
  "tpch_sf" ++ _format_scale_factor scale_factor ++ ".db"

/-- Source `config.BenchmarkConfig`: the raw dataclass fields, before the
`__post_init__` validation has run. Paths are strings. -/
structure BenchmarkConfig where
  scale_factor : PyDecimal
  data_path : String
  output_path : String
  iterations : Int
  queries : List Int
  tpch_extension_path : Option String
deriving Repr, DecidableEq

/-- Exceptions raised by `BenchmarkConfig.__post_init__`. -/
inductive ConfigError where
  | valueError (msg : String)
deriving Repr, DecidableEq

/-- First query number failing Python's `1 <= q <= 22` range check, in
list order, as scanned by the `for q in self.queries` loop. -/
def findBadQuery (queries : List Int) : Option Int :=
  queries.find? (fun q => !(1 ≤ q && q ≤ 22))

/-- Source `BenchmarkConfig.__post_init__`: validation in source order
(scale_factor positivity, iterations positivity, non-empty queries,
query range, extension-path existence). Static typing discharges the
Python `isinstance` checks. Returns the validated config, or the first
error raised; on an error no configuration object is produced. -/
def postInitValidate (fsExists : String → Bool) (c : BenchmarkConfig) :
    Except ConfigError BenchmarkConfig :=
  if c.scale_factor.nonposCheck then
    .error (.valueError "scale_factor must be positive")
  else if c.iterations ≤ 0 then
    .error (.valueError "iterations must be positive")
  else if c.queries.isEmpty then
    .error (.valueError "queries list cannot be empty")
  else
    match findBadQuery c.queries with
    | some q => .error (.valueError ("query " ++ toString q ++ " must be between 1 and 22"))
    | none =>
        match c.tpch_extension_path with
        | some p =>
            if fsExists p then .ok c
            else .error (.valueError ("tpch_extension_path does not exist: " ++ p))
        | none => .ok c

/-- A parsed configuration JSON object: each required key is `none` when
absent. `tpch_extension_path` distinguishes key-absent (outer `none`)
from key-present-but-null (inner `none`). -/
structure ConfigJson where
  scale_factor : Option PyDecimal
  data_path : Option String
  output_path : Option String
  iterations : Option Int
  queries : Option (List Int)
  tpch_extension_path : Option (Option String)
deriving Repr

/-- Errors surfaced by `config.load_config` after the file has been
read and decoded: `KeyError` from `data[...]` on an absent key, or a
`__post_init__` validation error. -/
inductive LoadError where
  | keyError (key : String)
  | configError (e : ConfigError)
deriving Repr, DecidableEq

/-- Source `config.load_config` after JSON decoding: `data.get("tpch_extension_path")`
yields `None` whether the key is absent or null; every other field is read
with `data[...]`, raising `KeyError` when absent; then the
`BenchmarkConfig` constructor (hence `__post_init__`) runs. -/
def load_config (fsExists : String → Bool) (j : ConfigJson) :
    Except LoadError BenchmarkConfig :=
  let ext : Option String := (j.tpch_extension_path).getD none
  match j.scale_factor with
  | none => .error (.keyError "scale_factor")
  | some sf =>
    match j.data_path with
    | none => .error (.keyError "data_path")
    | some dp =>
      match j.output_path with
      | none => .error (.keyError "output_path")
      | some op =>
        match j.iterations with
        | none => .error (.keyError "iterations")
        | some it =>
          match j.queries with
          | none => .error (.keyError "queries")
          | some qs =>
            match postInitValidate fsExists ⟨sf, dp, op, it, qs, ext⟩ with
            | .ok c => .ok c
            | .error e => .error (.configError e)

/-- Observable side effects of the pipeline, in program order: directory
creation, opening/closing the single in-memory DuckDB connection,
executing a SQL command on it, writing a file, downloading an artifact.
Individual TPC-H query executions are abstracted by the `ExecOutcome`
oracle and do not add events. -/
inductive Event where
  | mkdir (path : String)
  | connect
  | execSql (sql : String)
  | closeConn
  | writeFile (path : String)
  | download (url : String) (path : String)
deriving Repr, DecidableEq

/-- Source `pathlib.Path.parent` for the slash-separated paths with at least
one directory component that the source passes to it: drop the last
path component. -/
def parentDir (p : String) : String :=
  ⟨(((p.data.reverse.dropWhile (fun c => c ≠ '/')).drop 1).reverse)⟩

/-- Source `load_tpch_extension._get_default_extension_path`:
`data_path / "tpch.duckdb_extension"`. -/
def _get_default_extension_path (data_path : String) : String :=
  data_path ++ "/tpch.duckdb_extension"

/-- Source `load_tpch_extension.install_and_load_tpch`: compute the effective
extension path (explicit path, else default inside `data_path`, else
none); when it exists, `INSTALL tpch FROM '<its parent dir>';`,
otherwise the bundled `INSTALL tpch;`; then always `LOAD tpch;`.
Returns the SQL commands executed on the connection: the function
performs no download and no other side effect. -/
def install_and_load_tpch (fsExists : String → Bool)
    (extension_path : Option String) (data_path : Option String) : List Event :=
  let effective_path : Option String :=
    match extension_path, data_path with
    | some p, _ => some p
    | none, some dp => some (_get_default_extension_path dp)
    | none, none => none
  let installEvent : Event :=
    match effective_path with
    | some p =>
        if fsExists p then
          .execSql ("INSTALL tpch FROM \x27" ++ _escape_sql_string (parentDir p) ++ "\x27;")
        else
          .execSql "INSTALL tpch;"
    | none => .execSql "INSTALL tpch;"
  [installEvent, .execSql "LOAD tpch;"]

/-- Source `benchmark.BenchmarkResult`: one row per (query number, iteration). -/
structure BenchmarkResult where
  query_number : Int
  iteration : Int
  execution_time_ms : Rat
  row_count : Nat
  success : Bool
  error : Option String
deriving Repr, DecidableEq

/-- Outcome of one query execution on the external DuckDB engine,
covering the three branches of `Benchmark._execute_query`: the query
number is absent from `tpch_queries()`, the query runs and all rows are
fetched, or the engine raises. -/
inductive ExecOutcome where
  | notFound
  | success (execution_time_ms : Rat) (row_count : Nat)
  | failure (err : String)
deriving Repr, DecidableEq

/-- Source `Benchmark._execute_query`: builds the `BenchmarkResult` for one
(query number, iteration) pair from the engine outcome. In every branch
the record carries the given query number and iteration. -/
def _execute_query (outcome : Int → Int → ExecOutcome)
    (query_number iteration : Int) : BenchmarkResult :=
  match outcome query_number iteration with
  | .notFound =>
      ⟨query_number, iteration, 0, 0, false,
        some ("Query " ++ toString query_number ++ " not found in tpch_queries()")⟩
  | .success t rows => ⟨query_number, iteration, t, rows, true, none⟩
  | .failure e => ⟨query_number, iteration, 0, 0, false, some e⟩

/-- Source `DataGenerator._get_db_path` / `Benchmark._get_db_path`:
`config.data_path / _get_db_filename(config.scale_factor)`. -/
def _get_db_path (c : BenchmarkConfig) : String :=
  c.data_path ++ "/" ++ _get_db_filename c.scale_factor

/-- Source `Benchmark._load_data`: the ATTACH/COPY/DETACH commands restoring the
persisted dataset into the in-memory connection. -/
def loadDataEvents (c : BenchmarkConfig) : List Event :=
  [.execSql ("ATTACH \x27" ++ _escape_sql_string (_get_db_path c) ++ "\x27 AS tpch_source;"),
   .execSql "COPY FROM DATABASE tpch_source TO memory;",
   .execSql "DETACH tpch_source;"]

/-- Source `Benchmark.run`: raise `FileNotFoundError` when the dataset file is
absent, before any connection is opened (empty event trace); otherwise
connect, resolve the extension, load the data, and execute each
configured query for iterations `1..iterations` in order, closing the
connection at the end. -/
def Benchmark.run (fsExists : String → Bool) (outcome : Int → Int → ExecOutcome)
    (c : BenchmarkConfig) : Except String (List BenchmarkResult) × List Event :=
  if !(fsExists (_get_db_path c)) then
    (.error ("Database file not found: " ++ _get_db_path c ++ ". Run data generation first."),
     [])
  else
    let results := c.queries.flatMap (fun q =>
      (List.range' 1 c.iterations.toNat).map (fun i : Nat => _execute_query outcome q (i : Int)))
    (.ok results,
     [Event.connect]
       ++ install_and_load_tpch fsExists c.tpch_extension_path (some c.data_path)
       ++ loadDataEvents c
       ++ [Event.closeConn])

/-- Source `DataGenerator.generate`: create the data directory, then raise
`FileExistsError` when the destination file already exists — before any
connection is opened and without touching the file; otherwise connect,
resolve the extension, run `dbgen`, persist via ATTACH/COPY/DETACH
(which creates the destination file), and close the connection. -/
def DataGenerator.generate (fsExists : String → Bool) (c : BenchmarkConfig) :
    Except String String × List Event :=
  let db_path := _get_db_path c
  if fsExists db_path then
    (.error ("Database file already exists: " ++ db_path
        ++ ". Delete it first or use a different data_path."),
     [Event.mkdir c.data_path])
  else
    (.ok db_path,
     [Event.mkdir c.data_path, Event.connect]
       ++ install_and_load_tpch fsExists c.tpch_extension_path (some c.data_path)
       ++ [Event.execSql ("CALL dbgen(sf = " ++ c.scale_factor.str ++ ");"),
           Event.execSql ("ATTACH \x27" ++ _escape_sql_string db_path ++ "\x27 AS tpch_persist;"),
           Event.execSql "COPY FROM DATABASE memory TO tpch_persist;",
           Event.execSql "DETACH tpch_persist;",
           Event.writeFile db_path,
           Event.closeConn])

/-- JSON values appearing in per-query summaries. -/
inductive JsonVal where
  | num (q : Rat)
  | bool (b : Bool)
  | null
deriving Repr, DecidableEq

/-- Python `min` over a list; the source only applies it to non-empty
lists (Python raises on an empty one), so the empty case is arbitrary. -/
def pyMin : List Rat → Rat
  | [] => 0
  | t :: ts => ts.foldl min t

/-- Python `max` over a list; same caveat as `pyMin`. -/
def pyMax : List Rat → Rat
  | [] => 0
  | t :: ts => ts.foldl max t

/-- The per-query dictionary built inside `Benchmark._compute_summary`:
filter the run's records to this query's successful ones; when some
exist, emit `min_ms`/`max_ms`/`avg_ms` over their latencies, their count
as `iterations`, and `all_success` computed over that same filtered
list; when none exist, emit nulls, 0 and `false`. The key order mirrors
the Python dict literal. -/
def summaryForQuery (results : List BenchmarkResult) (query_number : Int) :
    List (String × JsonVal) :=
  let query_results := results.filter (fun r => r.query_number == query_number && r.success)
  if query_results.isEmpty then
    [("min_ms", .null), ("max_ms", .null), ("avg_ms", .null),
     ("iterations", .num 0), ("all_success", JsonVal.bool false)]
  else
    let times := query_results.map (fun r => r.execution_time_ms)
    [("min_ms", .num (pyMin times)),
     ("max_ms", .num (pyMax times)),
     ("avg_ms", .num (times.sum / (times.length : Rat))),
     ("iterations", .num (times.length : Rat)),
     ("all_success", JsonVal.bool (query_results.all (fun r => r.success)))]

/-- Source `Benchmark._compute_summary`: one entry per configured query number,
keyed `query_<n>`, in configured order. -/
def _compute_summary (c : BenchmarkConfig) (results : List BenchmarkResult) :
    List (String × List (String × JsonVal)) :=
  c.queries.map (fun q => ("query_" ++ toString q, summaryForQuery results q))

/-- Source `Benchmark.save_results`: raise `ValueError` when there are no
records, before creating the output directory or writing anything
(empty event trace); otherwise create the output directory and write
`benchmark_sf<formatted-sf>_<timestamp>.json` inside it. -/
def Benchmark.save_results (c : BenchmarkConfig) (results : List BenchmarkResult)
    (output_path : Option String) (timestamp : String) :
    Except String String × List Event :=
  if results.isEmpty then
    (.error "No benchmark results to save. Run the benchmark first.", [])
  else
    let output_dir := output_path.getD c.output_path
    let output_file := output_dir ++ "/benchmark_sf" ++ _format_scale_factor c.scale_factor
        ++ "_" ++ timestamp ++ ".json"
    (.ok output_file, [Event.mkdir output_dir, Event.writeFile output_file])

/-- A concrete valid configuration (scale factor 0.01, queries [1],
iterations 2, bundled extension) used to instantiate theorems. -/
def exampleConfig : BenchmarkConfig :=
  { scale_factor := ⟨false, 0, [0, 1]⟩
    data_path := "data"
    output_path := "results"
    iterations := 2
    queries := [1]
    tpch_extension_path := none }

/-- A configuration JSON object whose only absent key is
`tpch_extension_path`; every required key carries a valid value. -/
def jsonMissingExtensionKey : ConfigJson :=
  { scale_factor := some ⟨false, 1, [0]⟩
    data_path := some "data"
    output_path := some "results"
    iterations := some 3
    queries := some [1, 2]
    tpch_extension_path := none }

/-- The configuration `load_config` builds from `jsonMissingExtensionKey`. -/
def loadedDefaultConfig : BenchmarkConfig :=
  { scale_factor := ⟨false, 1, [0]⟩
    data_path := "data"
    output_path := "results"
    iterations := 3
    queries := [1, 2]
    tpch_extension_path := none }

/-- A configuration JSON object missing the required `scale_factor` key. -/
def jsonMissingScaleFactor : ConfigJson :=
  { scale_factor := none
    data_path := some "data"
    output_path := some "results"
    iterations := some 1
    queries := some [1]
    tpch_extension_path := some none }

/-- A raw configuration with `iterations = 0` and all other fields valid. -/
def invalidIterationsConfig : BenchmarkConfig :=
  { scale_factor := ⟨false, 1, [0]⟩
    data_path := "data"
    output_path := "results"
    iterations := 0
    queries := [1]
    tpch_extension_path := none }

/-- A raw configuration whose `tpch_extension_path` names a file that
the filesystem oracle reports absent; all other fields valid. -/
def missingExtensionConfig : BenchmarkConfig :=
  { scale_factor := ⟨false, 1, [0]⟩
    data_path := "data"
    output_path := "results"
    iterations := 1
    queries := [1]
    tpch_extension_path := some "/nope/tpch.duckdb_extension" }

/-- Fractional digit strings have non-negative value. -/
theorem digitsVal_nonneg (l : List Nat) : 0 ≤ digitsVal l := by
  induction l with
  | nil => simp [digitsVal]
  | cons d t ih =>
      rw [digitsVal]
      positivity

/-- A fractional digit string has value zero exactly when every digit
is zero. -/
theorem digitsVal_eq_zero_iff (l : List Nat) :
    digitsVal l = 0 ↔ l.all (fun dig => dig = 0) = true := by
  induction l with
  | nil => simp [digitsVal]
  | cons d t ih =>
      rw [digitsVal, List.all_cons, div_eq_zero_iff]
      have hd : (0 : Rat) ≤ (d : Rat) := by positivity
      have ht := digitsVal_nonneg t
      constructor
      · rintro (h | h)
        · have h1 : (d : Rat) = 0 := by nlinarith
          have h2 : digitsVal t = 0 := by nlinarith
          have h3 : d = 0 := by exact_mod_cast h1
          simp [h3, ih.mp h2]
        · norm_num at h
      · intro h
        simp only [Bool.and_eq_true, decide_eq_true_eq] at h
        left
        rw [show ((d : Rat) = 0) from by exact_mod_cast h.1, ih.2 (by simp [h.2])]
        norm_num

/-- The executable sign test used for the `scale_factor <= 0` check
agrees with the numeric value of the decimal. -/
theorem PyDecimal.nonposCheck_iff (d : PyDecimal) :
    d.nonposCheck = true ↔ d.toRat ≤ 0 := by
  have hi : (0 : Rat) ≤ (d.intPart : Rat) := by positivity
  have ht := digitsVal_nonneg d.fracDigits
  unfold PyDecimal.nonposCheck PyDecimal.toRat
  cases hn : d.neg with
  | true =>
      simp only [Bool.true_or, if_pos, true_iff]
      nlinarith
  | false =>
      simp only [Bool.false_or, if_neg, Bool.and_eq_true, decide_eq_true_eq, Bool.false_eq_true,
        not_false_iff]
      constructor
      · rintro ⟨h1, h2⟩
        rw [h1, (digitsVal_eq_zero_iff _).2 h2]
        norm_num
      · intro h
        have h0 : (d.intPart : Rat) + digitsVal d.fracDigits = 0 :=
          le_antisymm h (by positivity)
        have h1 : (d.intPart : Rat) = 0 := by nlinarith
        have h2 : digitsVal d.fracDigits = 0 := by nlinarith
        exact ⟨by exact_mod_cast h1, (digitsVal_eq_zero_iff _).1 h2⟩

/-- In every branch of `_execute_query` the record's query number is the
argument. -/
theorem _execute_query_query_number (outcome : Int → Int → ExecOutcome) (q i : Int) :
    (_execute_query outcome q i).query_number = q := by
  unfold _execute_query
  cases outcome q i <;> rfl

/-- In every branch of `_execute_query` the record's iteration is the
argument. -/
theorem _execute_query_iteration (outcome : Int → Int → ExecOutcome) (q i : Int) :
    (_execute_query outcome q i).iteration = i := by
  unfold _execute_query
  cases outcome q i <;> rfl

/-- Projecting (query number, iteration) out of the nested run loop
recovers the configured query/iteration matrix. -/
theorem matrix_map (outcome : Int → Int → ExecOutcome) (n : Nat) (qs : List Int) :
    ((qs.flatMap (fun q =>
        (List.range' 1 n).map (fun i : Nat => _execute_query outcome q (i : Int)))).map
          (fun r => (r.query_number, r.iteration)))
      = qs.flatMap (fun q => (List.range' 1 n).map (fun i : Nat => (q, (i : Int)))) := by
  induction qs with
  | nil => rfl
  | cons q t ih =>
      simp only [List.flatMap_cons, List.map_append, ih, List.map_map]
      congr 1
      apply List.map_congr_left
      intro i _
      simp [Function.comp, _execute_query_query_number, _execute_query_iteration]

/-- The nested run loop produces `qs.length * n` records. -/
theorem matrix_length (outcome : Int → Int → ExecOutcome) (n : Nat) (qs : List Int) :
    (qs.flatMap (fun q =>
        (List.range' 1 n).map (fun i : Nat => _execute_query outcome q (i : Int)))).length
      = qs.length * n := by
  induction qs with
  | nil => simp
  | cons q t ih =>
      simp only [List.flatMap_cons, List.length_append, List.length_map, List.length_range',
        ih, List.length_cons]
      ring

/-- Claim C1 — code evaluation at the failing input: for the single
successful latency 100 on query 1, the per-query summary contains
exactly the keys min_ms, max_ms, avg_ms, iterations and all_success;
the median, sample-variance and sample-stdev fields the claim requires
are absent (`_compute_summary` computes them on no code path). -/
theorem summary_single_latency_lacks_median_variance_stdev :
    ((_compute_summary exampleConfig [⟨1, 1, 100, 1, true, none⟩]).map
        (fun kv => (kv.1, kv.2.map Prod.fst))
      = [("query_1", ["min_ms", "max_ms", "avg_ms", "iterations", "all_success"])]) ∧
    (summaryForQuery [⟨1, 1, 100, 1, true, none⟩] 1).lookup "median_ms" = none ∧
    (summaryForQuery [⟨1, 1, 100, 1, true, none⟩] 1).lookup "variance_ms" = none ∧
    (summaryForQuery [⟨1, 1, 100, 1, true, none⟩] 1).lookup "stdev_ms" = none := by
  decide

/-- Claim C2 — code evaluation at the failing input: query 1 has a
failed iteration 1 and a successful iteration 2 (so not every record
succeeded), yet the summary reports all_success = true, because the flag
is computed over the list already filtered to successful records. -/
theorem summary_all_success_true_despite_failed_record :
    ((summaryForQuery
        [⟨1, 1, 0, 0, false, some "out of memory"⟩, ⟨1, 2, 100, 5, true, none⟩] 1).lookup
        "all_success" = some (JsonVal.bool true)) ∧
    ([⟨1, 1, 0, 0, false, some "out of memory"⟩,
      (⟨1, 2, 100, 5, true, none⟩ : BenchmarkResult)].all (fun r => r.success) = false) := by
  decide

/-- Claim C3 — code evaluation at the failing input: invoked with an
explicit extension path whose file does not exist,
`install_and_load_tpch` executes the bundled `INSTALL tpch;` followed by
`LOAD tpch;`: it downloads nothing and never loads from the given file
path, falling back to the bundled install channel. -/
theorem resolver_missing_explicit_path_falls_back_to_bundled :
    install_and_load_tpch (fun _ => false) (some "/ext/tpch.duckdb_extension") (some "data")
      = [Event.execSql "INSTALL tpch;", Event.execSql "LOAD tpch;"] := by
  decide

/-- Claim C4 — counterexample: a configuration JSON object missing the
extension-source indicator key `tpch_extension_path` (and no other key)
loads successfully — no missing-key error — and the loader fills the
field with the implicit default `none`. -/
theorem load_config_accepts_missing_extension_key :
    jsonMissingExtensionKey.tpch_extension_path = none ∧
    loadedDefaultConfig.tpch_extension_path = none ∧
    load_config (fun _ => false) jsonMissingExtensionKey = Except.ok loadedDefaultConfig :=
  ⟨rfl, rfl, rfl⟩

/-- Claim C4 (amended): for every configuration JSON object missing any
of the five required keys scale_factor, data_path, output_path,
iterations or queries, loading fails with a missing-key error; the
extension-source key `tpch_extension_path` is optional — when absent the
loader defaults it to `none` (bundled extension), its only implicit
default (see `load_config_accepts_missing_extension_key`). -/
theorem load_config_missing_required_key_fails (fsExists : String → Bool) (j : ConfigJson)
    (h : j.scale_factor = none ∨ j.data_path = none ∨ j.output_path = none
       ∨ j.iterations = none ∨ j.queries = none) :
    ∃ k, load_config fsExists j = Except.error (LoadError.keyError k) := by
  cases hsf : j.scale_factor with
  | none => exact ⟨"scale_factor", by simp [load_config, hsf]⟩
  | some sf =>
    cases hdp : j.data_path with
    | none => exact ⟨"data_path", by simp [load_config, hsf, hdp]⟩
    | some dp =>
      cases hop : j.output_path with
      | none => exact ⟨"output_path", by simp [load_config, hsf, hdp, hop]⟩
      | some op =>
        cases hit : j.iterations with
        | none => exact ⟨"iterations", by simp [load_config, hsf, hdp, hop, hit]⟩
        | some it =>
          cases hqs : j.queries with
          | none => exact ⟨"queries", by simp [load_config, hsf, hdp, hop, hit, hqs]⟩
          | some qs => rcases h with h | h | h | h | h <;> simp_all

/-- Witness for `load_config_missing_required_key_fails`: the loader
rejects the object missing `scale_factor`. -/
theorem load_config_missing_required_key_fails_witness :
    ∃ k, load_config (fun _ => false) jsonMissingScaleFactor
      = Except.error (LoadError.keyError k) :=
  load_config_missing_required_key_fails (fun _ => false) jsonMissingScaleFactor (Or.inl rfl)

/-- Claim C5: generate, when the destination dataset file already
exists, returns the "already exists" error having performed only the
data-directory mkdir — no engine connection is opened and the existing
file is untouched; and run, when the dataset file is absent, returns the
"not found" error with an empty event trace — no connection is opened
and no engine work is performed. -/
theorem generate_and_run_precondition_errors
    (fsExists : String → Bool) (outcome : Int → Int → ExecOutcome) (c : BenchmarkConfig) :
    (fsExists (_get_db_path c) = true →
        DataGenerator.generate fsExists c
          = (Except.error ("Database file already exists: " ++ _get_db_path c
              ++ ". Delete it first or use a different data_path."),
             [Event.mkdir c.data_path])) ∧
    (fsExists (_get_db_path c) = false →
        Benchmark.run fsExists outcome c
          = (Except.error ("Database file not found: " ++ _get_db_path c
              ++ ". Run data generation first."), [])) := by
  constructor
  · intro h
    simp [DataGenerator.generate, h]
  · intro h
    simp [Benchmark.run, h]

/-- Witness for `generate_and_run_precondition_errors` at the example
configuration: generate on a filesystem where the file exists, run on
one where it does not. -/
theorem generate_and_run_precondition_errors_witness :
    (DataGenerator.generate (fun _ => true) exampleConfig
        = (Except.error ("Database file already exists: " ++ _get_db_path exampleConfig
            ++ ". Delete it first or use a different data_path."),
           [Event.mkdir "data"])) ∧
    (Benchmark.run (fun _ => false) (fun _ _ => ExecOutcome.notFound) exampleConfig
        = (Except.error ("Database file not found: " ++ _get_db_path exampleConfig
            ++ ". Run data generation first."), [])) :=
  ⟨(generate_and_run_precondition_errors (fun _ => true) (fun _ _ => ExecOutcome.notFound)
      exampleConfig).1 rfl,
   (generate_and_run_precondition_errors (fun _ => false) (fun _ _ => ExecOutcome.notFound)
      exampleConfig).2 rfl⟩

/-- Claim C6: whenever the dataset file exists, a run succeeds with
exactly `len(queries) * iterations` records, whose (query number,
iteration) projections are the configured queries in order, each with
iterations 1..N ascending. -/
theorem run_produces_full_query_iteration_matrix
    (fsExists : String → Bool) (outcome : Int → Int → ExecOutcome) (c : BenchmarkConfig)
    (h : fsExists (_get_db_path c) = true) :
    ∃ rs, (Benchmark.run fsExists outcome c).1 = Except.ok rs ∧
      rs.map (fun r => (r.query_number, r.iteration))
        = c.queries.flatMap (fun q =>
            (List.range' 1 c.iterations.toNat).map (fun i : Nat => (q, (i : Int)))) ∧
      rs.length = c.queries.length * c.iterations.toNat := by
  refine ⟨c.queries.flatMap (fun q =>
      (List.range' 1 c.iterations.toNat).map
        (fun i : Nat => _execute_query outcome q (i : Int))),
    ?_, ?_, ?_⟩
  · simp [Benchmark.run, h]
  · exact matrix_map outcome c.iterations.toNat c.queries
  · exact matrix_length outcome c.iterations.toNat c.queries

/-- Witness for `run_produces_full_query_iteration_matrix`: with
queries = [1] and iterations = 2, a successful run yields exactly two
records, projecting to (1,1) then (1,2). -/
theorem run_produces_full_query_iteration_matrix_witness :
    ∃ rs, (Benchmark.run (fun _ => true) (fun _ _ => ExecOutcome.success 100 5)
        exampleConfig).1 = Except.ok rs ∧
      rs.map (fun r => (r.query_number, r.iteration)) = [(1, 1), (1, 2)] ∧
      rs.length = 2 := by
  obtain ⟨rs, h1, h2, h3⟩ := run_produces_full_query_iteration_matrix (fun _ => true)
    (fun _ _ => ExecOutcome.success 100 5) exampleConfig rfl
  refine ⟨rs, h1, ?_, ?_⟩
  · rw [h2]
    decide
  · rw [h3]
    decide

/-- Claim C7: the dataset filename on the four specified scale factors:
1.0 maps to tpch_sf1.db and 10.0 to tpch_sf10.db (integral factors drop
the fractional suffix), 0.1 maps to tpch_sf0_1.db and 0.01 to
tpch_sf0_01.db (fractional factors replace the decimal point by an
underscore). `_get_db_filename` is a pure function of the scale factor
by construction. -/
theorem db_filename_of_scale_factor :
    _get_db_filename ⟨false, 1, [0]⟩ = "tpch_sf1.db" ∧
    _get_db_filename ⟨false, 10, [0]⟩ = "tpch_sf10.db" ∧
    _get_db_filename ⟨false, 0, [1]⟩ = "tpch_sf0_1.db" ∧
    _get_db_filename ⟨false, 0, [0, 1]⟩ = "tpch_sf0_01.db" := by
  decide

/-- Claim C8: construction with non-positive iterations, an empty query
list, any query number outside [1,22], or a non-positive scale factor
fails `__post_init__` validation with a ValueError; no configuration
object is produced (the result is an error, never `ok`). -/
theorem post_init_rejects_invalid_config
    (fsExists : String → Bool) (c : BenchmarkConfig)
    (h : c.iterations ≤ 0 ∨ c.queries = [] ∨ (∃ q ∈ c.queries, q < 1 ∨ 22 < q)
       ∨ c.scale_factor.toRat ≤ 0) :
    ∃ msg, postInitValidate fsExists c = Except.error (ConfigError.valueError msg) := by
  by_cases h1 : c.scale_factor.nonposCheck = true
  · exact ⟨"scale_factor must be positive", by simp [postInitValidate, h1]⟩
  · have h1' : ¬c.scale_factor.toRat ≤ 0 := fun hh => h1 ((PyDecimal.nonposCheck_iff _).2 hh)
    by_cases h2 : c.iterations ≤ 0
    · exact ⟨"iterations must be positive", by simp [postInitValidate, h1, h2]⟩
    · by_cases h3 : c.queries.isEmpty = true
      · exact ⟨"queries list cannot be empty", by simp [postInitValidate, h1, h2, h3]⟩
      · have h3' : c.queries ≠ [] := by simpa [List.isEmpty_iff] using h3
        rcases h with h | h | h | h
        · exact absurd h h2
        · exact absurd h h3'
        · obtain ⟨q, hq, hrange⟩ := h
          have hfind : findBadQuery c.queries ≠ none := by
            unfold findBadQuery
            intro hnone
            rw [List.find?_eq_none] at hnone
            have hthis := hnone q hq
            simp at hthis
            omega
          obtain ⟨q0, hq0⟩ := Option.ne_none_iff_exists'.mp hfind
          exact ⟨"query " ++ toString q0 ++ " must be between 1 and 22",
            by simp [postInitValidate, h1, h2, h3, hq0]⟩
        · exact absurd h h1'

/-- Witness for `post_init_rejects_invalid_config`: iterations = 0 is
rejected. -/
theorem post_init_rejects_invalid_config_witness :
    ∃ msg, postInitValidate (fun _ => true) invalidIterationsConfig
      = Except.error (ConfigError.valueError msg) :=
  post_init_rejects_invalid_config (fun _ => true) invalidIterationsConfig (Or.inl (by decide))

/-- Claim C9: saving with an empty record list returns the "no results"
error with an empty event trace — no directory is created and no file is
written, whatever the configuration, output-path override and
timestamp. -/
theorem save_results_empty_records_fails (c : BenchmarkConfig)
    (output_path : Option String) (timestamp : String) :
    Benchmark.save_results c [] output_path timestamp
      = (Except.error "No benchmark results to save. Run the benchmark first.", []) :=
  rfl

/-- Claim C10: a configuration whose `tpch_extension_path` is a non-None
path absent from the filesystem fails `__post_init__` validation with an
error; consequently every successfully constructed configuration with an
explicit extension path refers to an existing file. -/
theorem post_init_rejects_missing_extension_path
    (fsExists : String → Bool) (c : BenchmarkConfig) (p : String)
    (hp : c.tpch_extension_path = some p) (hne : fsExists p = false) :
    ∃ e, postInitValidate fsExists c = Except.error e := by
  by_cases h1 : c.scale_factor.nonposCheck = true
  · exact ⟨ConfigError.valueError "scale_factor must be positive",
      by simp [postInitValidate, h1]⟩
  · by_cases h2 : c.iterations ≤ 0
    · exact ⟨ConfigError.valueError "iterations must be positive",
        by simp [postInitValidate, h1, h2]⟩
    · by_cases h3 : c.queries.isEmpty = true
      · exact ⟨ConfigError.valueError "queries list cannot be empty",
          by simp [postInitValidate, h1, h2, h3]⟩
      · cases hfb : findBadQuery c.queries with
        | some q0 =>
            exact ⟨ConfigError.valueError ("query " ++ toString q0
                ++ " must be between 1 and 22"),
              by simp [postInitValidate, h1, h2, h3, hfb]⟩
        | none =>
            exact ⟨ConfigError.valueError ("tpch_extension_path does not exist: " ++ p),
              by simp [postInitValidate, h1, h2, h3, hfb, hp, hne]⟩

/-- Witness for `post_init_rejects_missing_extension_path`: a config
pointing at an absent extension file is rejected. -/
theorem post_init_rejects_missing_extension_path_witness :
    ∃ e, postInitValidate (fun _ => false) missingExtensionConfig = Except.error e :=
  post_init_rejects_missing_extension_path (fun _ => false) missingExtensionConfig
    "/nope/tpch.duckdb_extension" rfl rfl

end DuckdbBenchmark

